import Mathlib

/-!
Verification of the party/address reconciliation module of a
Tryton–Magento connector (`party.py`).

Strings from the Python side are modelled as `List Char` (`Str`), so that
Python's truthiness test on a string (`if s:`) becomes `¬ s.isEmpty`, and
`str.split('\n', 1)` becomes a structural recursion.  Database rows are
records in explicit list-valued tables carried in a `DB` state; the
ambient Tryton transaction context's `current_channel` entry is an
`Option Nat` (the channel id, `none` when no channel is in context).
Fallible operations return `Except Err _`, where `Err` distinguishes the
module's two user errors from a raw Python `KeyError` escaping untouched.
-/

set_option autoImplicit false

namespace Magento

/-- Python strings, modelled as lists of characters. -/
abbrev Str := List Char

/-- `s or None` for a Python string: the empty string is turned into
`None`, a non-empty string is kept. -/
def normStr (s : Str) : Option Str :=
  if s.isEmpty then none else some s

/-- `(x or None)` where `x` is already `str | None`: `None` stays `None`,
`''` becomes `None`, other strings are kept. -/
def normOpt : Option Str → Option Str
  | none => none
  | some s => normStr s

/-- `' '.join(filter(None, [firstname, lastname]))`: drop the empty parts
and join the rest with a single space. -/
def joinName (firstname lastname : Str) : Str :=
  List.intercalate [' '] (([firstname, lastname]).filter (fun s => !s.isEmpty))

/-- Errors surfaced by the module.  `channel_not_found` is the user error
raised by `Party.find_or_create_using_magento_data` (the spec's
`ChannelContextMissing`); `party_exists` is the user error raised by
`MagentoWebsiteParty.check_unique_party` (the spec's
`DuplicatePartyInChannel`); `keyError` is an uncaught Python `KeyError`
(missing dict key, e.g. `Transaction().context['current_channel']` or
`address_data['country_id']`); `externalChannelError` stands for whatever
`sale.channel`'s `get_current_magento_channel` (an external collaborator,
not part of this repository) raises when no channel is in context. -/
inductive Err where
  | channel_not_found
  | party_exists
  | keyError
  | externalChannelError
  deriving DecidableEq, Repr

/-- A row of `sale.channel.magento.party` (`MagentoWebsiteParty`): the
channel-scoped link from a Magento customer id to a local party.
`channel` and `party` are the ids of the referenced rows. -/
structure MWParty where
  id : Nat
  magento_id : Nat
  channel : Nat
  party : Nat
  deriving DecidableEq, Repr

/-- Contact mechanism types occurring in the module (`'email'`,
`'phone'`, `'mobile'`); `other` covers any further Tryton type. -/
inductive CMType where
  | email
  | phone
  | mobile
  | other
  deriving DecidableEq, Repr

/-- A row of `party.contact_mechanism`, restricted to the fields the
module touches. -/
structure CM where
  party : Nat
  cm_type : CMType
  value : Str
  deriving DecidableEq, Repr

/-- A row of `party.party`, restricted to the fields the module touches. -/
structure PartyRec where
  id : Nat
  name : Str
  deriving DecidableEq, Repr

/-- A row of `party.address`, restricted to the fields the module touches.
Char fields are `Option Str`: Python `None` and the empty string are
distinct stored values. -/
structure AddressRec where
  id : Nat
  party : Nat
  name : Option Str
  street : Option Str
  streetbis : Option Str
  zip : Option Str
  city : Option Str
  country : Option Nat
  subdivision : Option Nat
  deriving DecidableEq, Repr

/-- The magento customer payload consumed by `Party`
(`{customer_id, firstname, lastname, email?}`).  `email` is read with
`.get`, so an absent key is modelled as `none`. -/
structure CustomerData where
  customer_id : Nat
  firstname : Str
  lastname : Str
  email : Option Str
  deriving DecidableEq, Repr

/-- The magento address payload consumed by `Address`.  `country_id` and
`region` are read by direct indexing (`address_data['country_id']`), so
an absent key — modelled as `none` — raises `KeyError` when reached;
`telephone` is read with `.get`. -/
structure AddressData where
  firstname : Str
  lastname : Str
  street : Str
  postcode : Str
  city : Str
  country_id : Option Str
  region : Option Str
  telephone : Option Str
  deriving DecidableEq, Repr

/-- The persistent store: the tables the module reads and writes, plus
fresh-id counters for the rows it creates. -/
structure DB where
  parties : List PartyRec
  mwparties : List MWParty
  contacts : List CM
  addresses : List AddressRec
  next_party_id : Nat
  next_mwp_id : Nat
  next_addr_id : Nat
  deriving DecidableEq, Repr

/-! ### `Address.get_street_parts` -/

/-- `magento_street_address.split('\n', 1)`: split at the first `'\n'`
only.  Returns the part before the first `'\n'` and, when a `'\n'` was
found, the remainder after it (verbatim, further `'\n'`s included). -/
def splitFirstNL : Str → Str × Option Str
  | [] => ([], none)
  | c :: cs =>
    if c = '\n' then ([], some cs)
    else
      let p := splitFirstNL cs
      (c :: p.1, p.2)

/-- `Address.get_street_parts`: magento has a single street column; a
line separator splits it into the two Tryton address lines.  Mirrors
`street_parts = s.split('\n', 1); return (parts[0], parts[1]) if len == 2
else (s, None)`. -/
def get_street_parts (magento_street_address : Str) : Str × Option Str :=
  let street_parts := splitFirstNL magento_street_address
  match street_parts.2 with
  | some rest => (street_parts.1, some rest)
  | none => (magento_street_address, none)

theorem splitFirstNL_no_nl {s : Str} (h : '\n' ∉ s) :
    splitFirstNL s = (s, none) := by
  induction s with
  | nil => rfl
  | cons c cs ih =>
    simp only [List.mem_cons, not_or] at h
    have hc : ¬ c = '\n' := fun e => h.1 e.symm
    simp [splitFirstNL, hc, ih h.2]

theorem splitFirstNL_nl {a : Str} (b : Str) (h : '\n' ∉ a) :
    splitFirstNL (a ++ '\n' :: b) = (a, some b) := by
  induction a with
  | nil => simp [splitFirstNL]
  | cons c cs ih =>
    simp only [List.mem_cons, not_or] at h
    have hc : ¬ c = '\n' := fun e => h.1 e.symm
    simp [splitFirstNL, hc, ih h.2]

theorem splitFirstNL_recon (s : Str) :
    match splitFirstNL s with
    | (street, some streetbis) => s = street ++ '\n' :: streetbis
    | (street, none) => street = s := by
  induction s with
  | nil => simp [splitFirstNL]
  | cons c cs ih =>
    by_cases hc : c = '\n'
    · subst hc
      simp [splitFirstNL]
    · rcases hp : splitFirstNL cs with ⟨st, bis⟩
      rw [hp] at ih
      cases bis with
      | none =>
        simp only [splitFirstNL, if_neg hc, hp]
        simpa using congrArg (List.cons c) ih
      | some r =>
        simp only [splitFirstNL, if_neg hc, hp]
        simpa using congrArg (List.cons c) ih

theorem splitFirstNL_mem (s : Str) : '\n' ∈ s ↔ (splitFirstNL s).2 ≠ none := by
  induction s with
  | nil => simp [splitFirstNL]
  | cons c cs ih =>
    by_cases hc : c = '\n'
    · subst hc
      simp [splitFirstNL]
    · have hc' : ¬ ('\n' = c) := fun e => hc e.symm
      simp [splitFirstNL, hc, hc', ih]

theorem get_street_parts_eq (s : Str) : get_street_parts s = splitFirstNL s := by
  have h := splitFirstNL_recon s
  rcases hp : splitFirstNL s with ⟨st, bis⟩
  rw [hp] at h
  cases bis with
  | none =>
    simp only at h
    simp [get_street_parts, hp, h]
  | some r =>
    simp [get_street_parts, hp]

/-- **C8.** `get_street_parts` splits on the first line-break only: the
text before the first `'\n'` becomes the street, everything after it
(further line-breaks included) becomes streetbis verbatim; with no
line-break the whole input is the street and streetbis is `none`. -/
theorem get_street_parts_first_newline (a b s : Str) :
    ('\n' ∉ a → get_street_parts (a ++ '\n' :: b) = (a, some b)) ∧
    ('\n' ∉ s → get_street_parts s = (s, none)) := by
  constructor
  · intro h
    rw [get_street_parts_eq]
    exact splitFirstNL_nl b h
  · intro h
    rw [get_street_parts_eq]
    exact splitFirstNL_no_nl h

theorem get_street_parts_witness :
    get_street_parts (['1', '2', ' ', 'A'] ++ '\n' :: ['B', '\n', 'C'])
        = (['1', '2', ' ', 'A'], some ['B', '\n', 'C']) ∧
    get_street_parts ['1', '2', ' ', 'A'] = (['1', '2', ' ', 'A'], none) :=
  ⟨(get_street_parts_first_newline ['1', '2', ' ', 'A'] ['B', '\n', 'C']
      ['1', '2', ' ', 'A']).1 (by decide),
   (get_street_parts_first_newline ['1', '2', ' ', 'A'] ['B', '\n', 'C']
      ['1', '2', ' ', 'A']).2 (by decide)⟩

/-- **C10.** `get_street_parts` is lossless: when it splits, street ++
`'\n'` ++ streetbis reproduces the input exactly; when it does not split,
the street is the input itself — and it splits exactly when the input
contains a line-break. -/
theorem get_street_parts_roundtrip (s : Str) :
    (match get_street_parts s with
      | (street, some streetbis) => s = street ++ '\n' :: streetbis
      | (street, none) => street = s) ∧
    ('\n' ∈ s ↔ (get_street_parts s).2 ≠ none) := by
  rw [get_street_parts_eq]
  exact ⟨splitFirstNL_recon s, splitFirstNL_mem s⟩

theorem get_street_parts_roundtrip_witness :
    (match get_street_parts ['A', '\n', 'B'] with
      | (street, some streetbis) => ['A', '\n', 'B'] = street ++ '\n' :: streetbis
      | (street, none) => street = ['A', '\n', 'B']) ∧
    ('\n' ∈ ['A', '\n', 'B'] ↔ (get_street_parts ['A', '\n', 'B']).2 ≠ none) :=
  get_street_parts_roundtrip ['A', '\n', 'B']

/-! ### `MagentoWebsiteParty` (`sale.channel.magento.party`) -/

/-- The count returned by `cls.search([('magento_id', '=', r.magento_id),
('channel', '=', r.channel.id), ('id', '!=', r.id)], count=True)`: the
number of OTHER rows sharing the (magento_id, channel) pair. -/
def count_same_party (db : List MWParty) (r : MWParty) : Nat :=
  (db.filter (fun s =>
    decide (s.magento_id = r.magento_id ∧ s.channel = r.channel ∧ s.id ≠ r.id))).length

/-- `MagentoWebsiteParty.check_unique_party`: each validated record must
be unique in its channel unless its magento id is 0 (guest customer).
The loop raises the `party_exists` user error at the first violating
record.  `db` is the full table being searched. -/
def check_unique_party (db : List MWParty) : List MWParty → Except Err Unit
  | [] => .ok ()
  | magento_partner :: rest =>
    if magento_partner.magento_id ≠ 0 ∧ 0 < count_same_party db magento_partner then
      .error .party_exists
    else
      check_unique_party db rest

theorem count_same_party_pos (db : List MWParty) (r : MWParty) :
    0 < count_same_party db r ↔
      ∃ s ∈ db, s.magento_id = r.magento_id ∧ s.channel = r.channel ∧ s.id ≠ r.id := by
  rw [count_same_party, List.length_pos_iff_exists_mem]
  constructor
  · rintro ⟨s, hs⟩
    rw [List.mem_filter] at hs
    exact ⟨s, hs.1, of_decide_eq_true hs.2⟩
  · rintro ⟨s, hs, hprop⟩
    exact ⟨s, List.mem_filter.2 ⟨hs, decide_eq_true hprop⟩⟩

/-- **C1.** Validation of `sale.channel.magento.party` records raises the
`party_exists` user error (`DuplicatePartyInChannel`) iff some validated
record has a non-zero magento id and another row of the table shares its
(magento_id, channel); in every other case — in particular whenever every
validated record is a guest record (magento id 0) — it succeeds. -/
theorem check_unique_party_iff (db records : List MWParty) :
    (check_unique_party db records = .error .party_exists ↔
      ∃ r ∈ records, r.magento_id ≠ 0 ∧
        ∃ s ∈ db, s.magento_id = r.magento_id ∧ s.channel = r.channel ∧ s.id ≠ r.id) ∧
    (check_unique_party db records = .ok () ∨
      check_unique_party db records = .error .party_exists) := by
  induction records with
  | nil => simp [check_unique_party]
  | cons r rs ih =>
    obtain ⟨ih1, ih2⟩ := ih
    by_cases hr : r.magento_id ≠ 0 ∧ 0 < count_same_party db r
    · refine ⟨?_, ?_⟩
      · simp only [check_unique_party, if_pos hr]
        constructor
        · intro _
          exact ⟨r, List.mem_cons_self r rs, hr.1, (count_same_party_pos db r).1 hr.2⟩
        · intro _
          trivial
      · simp [check_unique_party, if_pos hr]
    · refine ⟨?_, ?_⟩
      · simp only [check_unique_party, if_neg hr]
        rw [ih1]
        constructor
        · rintro ⟨q, hq, h1, h2⟩
          exact ⟨q, List.mem_cons_of_mem r hq, h1, h2⟩
        · rintro ⟨q, hq, h1, h2⟩
          rcases List.mem_cons.1 hq with h | h
          · subst h
            exact absurd ⟨h1, (count_same_party_pos db q).2 h2⟩ hr
          · exact ⟨q, h, h1, h2⟩
      · simp only [check_unique_party, if_neg hr]
        exact ih2

theorem check_unique_party_iff_witness :
    (check_unique_party [⟨1, 5, 1, 10⟩] [⟨2, 5, 1, 20⟩] = .error .party_exists ↔
      ∃ r ∈ [(⟨2, 5, 1, 20⟩ : MWParty)], r.magento_id ≠ 0 ∧
        ∃ s ∈ [(⟨1, 5, 1, 10⟩ : MWParty)],
          s.magento_id = r.magento_id ∧ s.channel = r.channel ∧ s.id ≠ r.id) ∧
    (check_unique_party [⟨1, 5, 1, 10⟩] [⟨2, 5, 1, 20⟩] = .ok () ∨
      check_unique_party [⟨1, 5, 1, 10⟩] [⟨2, 5, 1, 20⟩] = .error .party_exists) :=
  check_unique_party_iff [⟨1, 5, 1, 10⟩] [⟨2, 5, 1, 20⟩]

/-! ### `Party` (`party.party`) -/

/-- `MagentoParty.search([('magento_id', '=', mid), ('channel', '=',
ch)])`: all rows matching the (magento_id, channel) key. -/
def search_party (db : List MWParty) (magento_id channel : Nat) : List MWParty :=
  db.filter (fun s => decide (s.magento_id = magento_id ∧ s.channel = channel))

/-- `Party.find_using_magento_id`: reads
`Transaction().context['current_channel']` inside the `try` block — a
missing channel raises `KeyError`, which the `except ValueError` clause
does not catch.  The tuple unpack `magento_party, = ...` raises
`ValueError` (caught, returning `None`) unless the search returns exactly
one row. -/
def find_using_magento_id (db : List MWParty) (ctx : Option Nat) (magento_id : Nat) :
    Except Err (Option Nat) :=
  match ctx with
  | none => .error .keyError
  | some current_channel =>
    match search_party db magento_id current_channel with
    | [magento_party] => .ok (some magento_party.party)
    | _ => .ok none

/-- `Party.find_using_magento_data`: identical to `find_using_magento_id`
but keyed off `magento_data['customer_id']`. -/
def find_using_magento_data (db : List MWParty) (ctx : Option Nat) (magento_data : CustomerData) :
    Except Err (Option Nat) :=
  match ctx with
  | none => .error .keyError
  | some current_channel =>
    match search_party db magento_data.customer_id current_channel with
    | [magento_party] => .ok (some magento_party.party)
    | _ => .ok none

/-- The `contact_mechanisms` rows created by
`Party.create_using_magento_data`: one email contact iff
`magento_data.get('email')` is truthy (key present and non-empty). -/
def email_contacts (party_id : Nat) (magento_data : CustomerData) : List CM :=
  match magento_data.email with
  | some e => if e.isEmpty then [] else [⟨party_id, CMType.email, e⟩]
  | none => []

/-- `Party.create_using_magento_data`: creates one party (name = space
join of the non-empty name parts), one `sale.channel.magento.party` row
for (payload customer id, context channel), and an email contact iff the
payload has a non-empty email.  Reading
`Transaction().context['current_channel']` raises `KeyError` when no
channel is in context; the ORM `create` runs `validate` — hence
`check_unique_party` — on the new row. -/
def create_using_magento_data (ctx : Option Nat) (magento_data : CustomerData) (db : DB) :
    Except Err (Nat × DB) :=
  match ctx with
  | none => .error .keyError
  | some current_channel =>
    let pid := db.next_party_id
    let new_ref : MWParty :=
      ⟨db.next_mwp_id, magento_data.customer_id, current_channel, pid⟩
    let db' : DB := { db with
      parties := db.parties ++ [⟨pid, joinName magento_data.firstname magento_data.lastname⟩],
      mwparties := db.mwparties ++ [new_ref],
      contacts := db.contacts ++ email_contacts pid magento_data,
      next_party_id := db.next_party_id + 1,
      next_mwp_id := db.next_mwp_id + 1 }
    match check_unique_party db'.mwparties [new_ref] with
    | .error e => .error e
    | .ok _ => .ok (pid, db')

/-- `Party.find_or_create_using_magento_data`: guards the context
explicitly (`raise_user_error('channel_not_found')` when
`context.get('current_channel')` is `None`), then find, then create on a
miss. -/
def find_or_create_using_magento_data (ctx : Option Nat) (magento_data : CustomerData) (db : DB) :
    Except Err (Nat × DB) :=
  match ctx with
  | none => .error .channel_not_found
  | some _ =>
    match find_using_magento_data db.mwparties ctx magento_data with
    | .error e => .error e
    | .ok (some party) => .ok (party, db)
    | .ok none => create_using_magento_data ctx magento_data db

/-- `Party.find_or_create_using_magento_id`: first calls
`Channel.get_current_magento_channel()` — an external collaborator from
the `sale_channel` dependency, modelled as failing with its own error
when no channel is in context — then find, then fetch the customer
payload from the magento API (`customer_api`) and create on a miss. -/
def find_or_create_using_magento_id (ctx : Option Nat) (customer_api : Nat → CustomerData)
    (magento_id : Nat) (db : DB) : Except Err (Nat × DB) :=
  match ctx with
  | none => .error .externalChannelError
  | some _ =>
    match find_using_magento_id db.mwparties ctx magento_id with
    | .error e => .error e
    | .ok (some party) => .ok (party, db)
    | .ok none => create_using_magento_data ctx (customer_api magento_id) db

/-- **C2 counterexample.** With two rows sharing (channel 1, magento id
5), the lookup does not fail at all: the tuple-unpack `ValueError` is
caught and `None` is returned, for both lookup variants — there is no
`AmbiguousMatch` failure. -/
theorem find_multimatch_silent_cx :
    find_using_magento_id [⟨1, 5, 1, 10⟩, ⟨2, 5, 1, 20⟩] (some 1) 5 = .ok none ∧
    find_using_magento_data [⟨1, 5, 1, 10⟩, ⟨2, 5, 1, 20⟩] (some 1) ⟨5, [], [], none⟩
      = .ok none := by
  exact ⟨rfl, rfl⟩

/-- **C2 (amended).** If exactly one row matches (channel, remote id) the
linked party is returned; in every other case — zero matches or more than
one — the lookup silently returns none: multiple matches are treated the
same as no match, with no `AmbiguousMatch` error. -/
theorem find_lookup_characterization (db : List MWParty) (ch mid : Nat) (d : CustomerData) :
    (∀ p, search_party db mid ch = [p] →
      find_using_magento_id db (some ch) mid = .ok (some p.party)) ∧
    ((search_party db mid ch).length ≠ 1 →
      find_using_magento_id db (some ch) mid = .ok none) ∧
    (∀ p, search_party db d.customer_id ch = [p] →
      find_using_magento_data db (some ch) d = .ok (some p.party)) ∧
    ((search_party db d.customer_id ch).length ≠ 1 →
      find_using_magento_data db (some ch) d = .ok none) := by
  refine ⟨?_, ?_, ?_, ?_⟩
  · intro p hp
    simp [find_using_magento_id, hp]
  · intro h
    rcases hl : search_party db mid ch with _ | ⟨p, _ | ⟨q, l⟩⟩
    · simp [find_using_magento_id, hl]
    · rw [hl] at h
      simp at h
    · simp [find_using_magento_id, hl]
  · intro p hp
    simp [find_using_magento_data, hp]
  · intro h
    rcases hl : search_party db d.customer_id ch with _ | ⟨p, _ | ⟨q, l⟩⟩
    · simp [find_using_magento_data, hl]
    · rw [hl] at h
      simp at h
    · simp [find_using_magento_data, hl]

theorem find_lookup_characterization_witness :
    find_using_magento_id [⟨1, 5, 1, 10⟩] (some 1) 5
        = .ok (some (MWParty.mk 1 5 1 10).party) ∧
    find_using_magento_data [⟨1, 5, 1, 10⟩] (some 1) ⟨7, [], [], none⟩ = .ok none :=
  ⟨(find_lookup_characterization [⟨1, 5, 1, 10⟩] 1 5 ⟨7, [], [], none⟩).1
      ⟨1, 5, 1, 10⟩ (by rfl),
   (find_lookup_characterization [⟨1, 5, 1, 10⟩] 1 5 ⟨7, [], [], none⟩).2.2.2
      (by decide)⟩

/-- **C4 counterexample.** With no channel in the transaction context,
`find_using_magento_id` raises an uncaught Python `KeyError` (the
`except ValueError` clause does not catch it) — not the
`channel_not_found` user error (`ChannelContextMissing`). -/
theorem channel_missing_cx :
    find_using_magento_id [] none 5 = .error .keyError ∧
    find_using_magento_id [] none 5 ≠ .error .channel_not_found := by
  refine ⟨rfl, ?_⟩
  intro h
  simp [find_using_magento_id] at h

/-- **C4 (amended).** Only `find_or_create_using_magento_data` guards the
context and fails with the `channel_not_found` user error
(`ChannelContextMissing`).  `find_using_magento_id`,
`find_using_magento_data` and `create_using_magento_data` instead raise a
bare `KeyError` on the context read, and
`find_or_create_using_magento_id` delegates the check to the external
`get_current_magento_channel` collaborator.  All of them fail before
touching any record. -/
theorem channel_context_guards (db : DB) (mdb : List MWParty) (d : CustomerData) (mid : Nat)
    (api : Nat → CustomerData) :
    find_or_create_using_magento_data none d db = .error .channel_not_found ∧
    find_using_magento_id mdb none mid = .error .keyError ∧
    find_using_magento_data mdb none d = .error .keyError ∧
    create_using_magento_data none d db = .error .keyError ∧
    find_or_create_using_magento_id none api mid db = .error .externalChannelError :=
  ⟨rfl, rfl, rfl, rfl, rfl⟩

theorem email_contacts_some {pid : Nat} {d : CustomerData} {e : Str}
    (he : d.email = some e) (hne : e ≠ []) :
    email_contacts pid d = [⟨pid, CMType.email, e⟩] := by
  cases e with
  | nil => exact absurd rfl hne
  | cons c cs => simp [email_contacts, he, List.isEmpty]

theorem email_contacts_none {pid : Nat} {d : CustomerData}
    (h : d.email = none ∨ d.email = some []) :
    email_contacts pid d = [] := by
  rcases h with h | h <;> simp [email_contacts, h, List.isEmpty]

/-- The database state after a successful `Party.create_using_magento_data`:
one new party row, one new channel-link row, and the optional email
contact. -/
def created_db (ch : Nat) (d : CustomerData) (db : DB) : DB :=
  { db with
    parties := db.parties ++ [⟨db.next_party_id, joinName d.firstname d.lastname⟩],
    mwparties := db.mwparties ++ [⟨db.next_mwp_id, d.customer_id, ch, db.next_party_id⟩],
    contacts := db.contacts ++ email_contacts db.next_party_id d,
    next_party_id := db.next_party_id + 1,
    next_mwp_id := db.next_mwp_id + 1 }

theorem check_unique_new_ok (ch : Nat) (d : CustomerData) (db : DB)
    (hnodup : d.customer_id = 0 ∨
      ∀ s ∈ db.mwparties,
        ¬(s.magento_id = d.customer_id ∧ s.channel = ch ∧ s.id ≠ db.next_mwp_id)) :
    check_unique_party
        (db.mwparties ++ [⟨db.next_mwp_id, d.customer_id, ch, db.next_party_id⟩])
        [⟨db.next_mwp_id, d.customer_id, ch, db.next_party_id⟩] = .ok () := by
  simp only [check_unique_party]
  rw [if_neg]
  rintro ⟨hz, hpos⟩
  rw [count_same_party_pos] at hpos
  obtain ⟨s, hs, hid, hch, hne⟩ := hpos
  rcases List.mem_append.1 hs with hmem | hmem
  · rcases hnodup with h0 | hB
    · exact hz h0
    · exact hB s hmem ⟨hid, hch, hne⟩
  · rw [List.mem_singleton] at hmem
    subst hmem
    exact hne rfl

theorem create_using_magento_data_ok (ch : Nat) (d : CustomerData) (db : DB)
    (hnodup : d.customer_id = 0 ∨
      ∀ s ∈ db.mwparties,
        ¬(s.magento_id = d.customer_id ∧ s.channel = ch ∧ s.id ≠ db.next_mwp_id)) :
    create_using_magento_data (some ch) d db = .ok (db.next_party_id, created_db ch d db) := by
  simp only [create_using_magento_data]
  rw [check_unique_new_ok ch d db hnodup]
  rfl

/-- **C7.** `create_using_magento_data` creates a party named by the
single-space join of the non-empty name parts, exactly one
`sale.channel.magento.party` row with the payload's customer id and the
context channel, and an email contact iff the payload carries a non-empty
email; the address table is untouched. -/
theorem create_using_magento_data_spec (ch : Nat) (d : CustomerData) (db : DB)
    (hnodup : d.customer_id = 0 ∨
      ∀ s ∈ db.mwparties,
        ¬(s.magento_id = d.customer_id ∧ s.channel = ch ∧ s.id ≠ db.next_mwp_id)) :
    ∃ pid db',
      create_using_magento_data (some ch) d db = .ok (pid, db') ∧
      db'.parties = db.parties ++ [⟨pid, joinName d.firstname d.lastname⟩] ∧
      db'.mwparties = db.mwparties ++ [⟨db.next_mwp_id, d.customer_id, ch, pid⟩] ∧
      (∀ e, d.email = some e → e ≠ [] →
        db'.contacts = db.contacts ++ [⟨pid, CMType.email, e⟩]) ∧
      ((d.email = none ∨ d.email = some []) → db'.contacts = db.contacts) ∧
      db'.addresses = db.addresses := by
  refine ⟨db.next_party_id, created_db ch d db,
    create_using_magento_data_ok ch d db hnodup, rfl, rfl, ?_, ?_, rfl⟩
  · intro e he hne
    simp [created_db, email_contacts_some he hne]
  · intro h
    simp [created_db, email_contacts_none h]

theorem create_using_magento_data_spec_witness :
    ∃ pid db',
      create_using_magento_data (some 1) ⟨8, [], ['L', 'e', 'e'], none⟩
          ⟨[], [], [], [], 0, 0, 0⟩ = .ok (pid, db') ∧
      db'.parties = [] ++ [⟨pid, joinName [] ['L', 'e', 'e']⟩] ∧
      db'.mwparties = [] ++ [⟨0, 8, 1, pid⟩] ∧
      (∀ e, (none : Option Str) = some e → e ≠ [] →
        db'.contacts = [] ++ [⟨pid, CMType.email, e⟩]) ∧
      (((none : Option Str) = none ∨ (none : Option Str) = some []) → db'.contacts = []) ∧
      db'.addresses = [] :=
  create_using_magento_data_spec 1 ⟨8, [], ['L', 'e', 'e'], none⟩ ⟨[], [], [], [], 0, 0, 0⟩
    (Or.inr (by intro s hs; exact absurd hs (List.not_mem_nil s)))

theorem search_party_append (l1 l2 : List MWParty) (mid ch : Nat) :
    search_party (l1 ++ l2) mid ch = search_party l1 mid ch ++ search_party l2 mid ch := by
  simp [search_party, List.filter_append]

/-- **C3.** `find_or_create_using_magento_id` is idempotent: with a
channel in context, a remote API that echoes the requested customer id,
and no pre-existing duplicate rows for the key, two successive calls with
the same (channel, magento id) return the same party id, and the second
call changes nothing. -/
theorem find_or_create_idempotent (db : DB) (ch mid : Nat) (api : Nat → CustomerData)
    (h1 : (api mid).customer_id = mid)
    (h2 : (search_party db.mwparties mid ch).length ≤ 1) :
    ∃ p db1,
      find_or_create_using_magento_id (some ch) api mid db = .ok (p, db1) ∧
      find_or_create_using_magento_id (some ch) api mid db1 = .ok (p, db1) := by
  rcases hl : search_party db.mwparties mid ch with _ | ⟨mp, rest⟩
  · -- no existing row: the first call creates, the second finds the new row
    have hnodup : (api mid).customer_id = 0 ∨
        ∀ s ∈ db.mwparties,
          ¬(s.magento_id = (api mid).customer_id ∧ s.channel = ch ∧ s.id ≠ db.next_mwp_id) := by
      right
      rintro s hs ⟨ha, hb, -⟩
      have hmem : s ∈ search_party db.mwparties mid ch :=
        List.mem_filter.2 ⟨hs, decide_eq_true ⟨by rw [ha, h1], hb⟩⟩
      rw [hl] at hmem
      exact absurd hmem (List.not_mem_nil s)
    have hc := create_using_magento_data_ok ch (api mid) db hnodup
    refine ⟨db.next_party_id, created_db ch (api mid) db, ?_, ?_⟩
    · simp [find_or_create_using_magento_id, find_using_magento_id, hl, hc]
    · have hsearch : search_party (created_db ch (api mid) db).mwparties mid ch
          = [⟨db.next_mwp_id, (api mid).customer_id, ch, db.next_party_id⟩] := by
        have hmw : (created_db ch (api mid) db).mwparties
            = db.mwparties ++ [⟨db.next_mwp_id, (api mid).customer_id, ch, db.next_party_id⟩] :=
          rfl
        rw [hmw, search_party_append, hl]
        simp [search_party, h1]
      simp [find_or_create_using_magento_id, find_using_magento_id, hsearch]
  · -- an existing row: both calls find it and change nothing
    rcases rest with _ | ⟨q, l⟩
    · refine ⟨mp.party, db, ?_, ?_⟩ <;>
        simp [find_or_create_using_magento_id, find_using_magento_id, hl]
    · rw [hl] at h2
      simp at h2

theorem find_or_create_idempotent_witness :
    ∃ p db1,
      find_or_create_using_magento_id (some 1) (fun n => ⟨n, [], [], none⟩) 7
          ⟨[], [], [], [], 0, 0, 0⟩ = .ok (p, db1) ∧
      find_or_create_using_magento_id (some 1) (fun n => ⟨n, [], [], none⟩) 7 db1
          = .ok (p, db1) :=
  find_or_create_idempotent ⟨[], [], [], [], 0, 0, 0⟩ 1 7 (fun n => ⟨n, [], [], none⟩)
    rfl (by decide)

/-! ### `Address` (`party.address`) -/

/-- The country/subdivision resolution block that
`Address.match_with_magento_data` and
`Address.create_for_party_using_magento_data` both contain verbatim:
`country = None; subdivision = None; if address_data['country_id']:
country = Country.search_using_magento_code(...); if
address_data['region']: subdivision =
Subdivision.search_using_magento_region(region, country)`.
`resolveCountry` and `resolveSubdivision` are the external lookup
collaborators, returning record ids; the direct dict indexing raises
`KeyError` when the accessed key is absent. -/
def resolve_geo (resolveCountry : Str → Nat) (resolveSubdivision : Str → Nat → Nat)
    (address_data : AddressData) : Except Err (Option Nat × Option Nat) :=
  match address_data.country_id with
  | none => .error .keyError
  | some cid =>
    if cid.isEmpty then .ok (none, none)
    else
      let country := resolveCountry cid
      match address_data.region with
      | none => .error .keyError
      | some r =>
        if r.isEmpty then .ok (some country, none)
        else .ok (some country, some (resolveSubdivision r country))

/-- `Address.match_with_magento_data`: the name check (strict comparison
of the stored name against the space-joined remote name) runs first and
short-circuits to `False`; only then are country and subdivision
resolved, the street split, and the remaining fields compared with the
remote value normalized by `or None` (empty string becomes `None`) while
the stored value is used as-is. -/
def match_with_magento_data (resolveCountry : Str → Nat) (resolveSubdivision : Str → Nat → Nat)
    (a : AddressRec) (address_data : AddressData) : Except Err Bool :=
  if a.name ≠ some (joinName address_data.firstname address_data.lastname) then
    .ok false
  else
    match resolve_geo resolveCountry resolveSubdivision address_data with
    | .error e => .error e
    | .ok (country, subdivision) =>
      let sp := get_street_parts address_data.street
      .ok (decide (a.street = normStr sp.1 ∧ a.streetbis = normOpt sp.2 ∧
        a.zip = normStr address_data.postcode ∧ a.city = normStr address_data.city ∧
        a.country = country ∧ a.subdivision = subdivision))

/-- `party.addresses`: the party's addresses in stored order. -/
def party_addresses (db : DB) (pid : Nat) : List AddressRec :=
  db.addresses.filter (fun a => decide (a.party = pid))

/-- The `for address in party.addresses: if address.match...: break`
loop: first address that matches, errors propagating. -/
def find_first_match (rc : Str → Nat) (rs : Str → Nat → Nat) (address_data : AddressData) :
    List AddressRec → Except Err (Option AddressRec)
  | [] => .ok none
  | a :: rest =>
    match match_with_magento_data rc rs a address_data with
    | .error e => .error e
    | .ok true => .ok (some a)
    | .ok false => find_first_match rc rs address_data rest

/-- `ContactMechanism.search([('party', '=', pid), ('type', 'in',
['phone', 'mobile']), ('value', '=', t)])` is non-empty. -/
def has_phone_contact (contacts : List CM) (pid : Nat) (t : Str) : Bool :=
  contacts.any (fun c =>
    decide (c.party = pid ∧ (c.cm_type = CMType.phone ∨ c.cm_type = CMType.mobile) ∧
      c.value = t))

/-- The phone contact rows created by
`Address.create_for_party_using_magento_data`: one phone contact iff
`address_data.get('telephone')` is truthy and no phone/mobile contact of
the party already carries that exact value. -/
def phone_contacts (contacts : List CM) (pid : Nat) (address_data : AddressData) : List CM :=
  match address_data.telephone with
  | some t =>
    if !t.isEmpty && !has_phone_contact contacts pid t then [⟨pid, CMType.phone, t⟩] else []
  | none => []

/-- `country and country.id or None`: Python's truthiness chain on an
active record reference (`none` stays `none`; a record with a falsy id
would also collapse to `none`). -/
def record_id_or_none : Option Nat → Option Nat
  | some i => if i = 0 then none else some i
  | none => none

/-- `Address.create_for_party_using_magento_data`: resolves country and
subdivision (same block as matching, `KeyError` on an absent key),
creates one address with the split street, raw postcode/city and the
resolved references, then creates one phone contact iff the payload
carries a telephone and the party has no phone/mobile contact with that
value. -/
def create_for_party_using_magento_data (rc : Str → Nat) (rs : Str → Nat → Nat)
    (pid : Nat) (address_data : AddressData) (db : DB) : Except Err (AddressRec × DB) :=
  match resolve_geo rc rs address_data with
  | .error e => .error e
  | .ok (country, subdivision) =>
    let sp := get_street_parts address_data.street
    let address : AddressRec :=
      { id := db.next_addr_id, party := pid,
        name := some (joinName address_data.firstname address_data.lastname),
        street := some sp.1, streetbis := sp.2,
        zip := some address_data.postcode, city := some address_data.city,
        country := record_id_or_none country,
        subdivision := record_id_or_none subdivision }
    let db' : DB := { db with
      addresses := db.addresses ++ [address],
      contacts := db.contacts ++ phone_contacts db.contacts pid address_data,
      next_addr_id := db.next_addr_id + 1 }
    .ok (address, db')

/-- `Address.find_or_create_for_party_using_magento_data`: first match
among the party's addresses, else create. -/
def find_or_create_for_party_using_magento_data (rc : Str → Nat) (rs : Str → Nat → Nat)
    (pid : Nat) (address_data : AddressData) (db : DB) : Except Err (AddressRec × DB) :=
  match find_first_match rc rs address_data (party_addresses db pid) with
  | .error e => .error e
  | .ok (some address) => .ok (address, db)
  | .ok none => create_for_party_using_magento_data rc rs pid address_data db

theorem match_ok_true_iff (rc : Str → Nat) (rs : Str → Nat → Nat)
    (a : AddressRec) (d : AddressData) (gc gs : Option Nat)
    (hgeo : resolve_geo rc rs d = .ok (gc, gs)) :
    match_with_magento_data rc rs a d = .ok true ↔
      (a.name = some (joinName d.firstname d.lastname) ∧
       a.street = normStr (get_street_parts d.street).1 ∧
       a.streetbis = normOpt (get_street_parts d.street).2 ∧
       a.zip = normStr d.postcode ∧
       a.city = normStr d.city ∧
       a.country = gc ∧
       a.subdivision = gs) := by
  by_cases hn : a.name = some (joinName d.firstname d.lastname)
  · simp [match_with_magento_data, hn, hgeo, and_assoc]
  · simp [match_with_magento_data, hn]

theorem match_total (rc : Str → Nat) (rs : Str → Nat → Nat)
    (a : AddressRec) (d : AddressData) (gc gs : Option Nat)
    (hgeo : resolve_geo rc rs d = .ok (gc, gs)) :
    ∃ b, match_with_magento_data rc rs a d = .ok b := by
  by_cases hn : a.name = some (joinName d.firstname d.lastname)
  · refine ⟨decide (a.street = normStr (get_street_parts d.street).1 ∧
        a.streetbis = normOpt (get_street_parts d.street).2 ∧
        a.zip = normStr d.postcode ∧ a.city = normStr d.city ∧
        a.country = gc ∧ a.subdivision = gs), ?_⟩
    simp only [match_with_magento_data, hgeo]
    rw [if_neg (not_not_intro hn)]
  · exact ⟨false, by simp [match_with_magento_data, hn]⟩

/-- **C5 counterexample.** A local address whose `streetbis` is stored as
the empty string, against a remote payload whose street has no second
line (so the remote streetbis is absent) and which agrees on every other
field, does NOT match: the stored `''` is compared as-is against the
normalized remote `None`. -/
theorem streetbis_empty_vs_absent_cx :
    match_with_magento_data (fun _ => 0) (fun _ _ => 0)
      ⟨1, 1, some ['J'], some ['M'], some [], none, none, none, none⟩
      ⟨['J'], [], ['M'], [], [], some [], none, none⟩ = .ok false := by
  rfl

/-- **C5 (amended).** Matching normalizes only the remote side: once the
strict name comparison passes and country/subdivision resolve, the
address matches iff each stored field equals the remote value with empty
remote strings (street, streetbis, zip, city) normalized to `none`, the
stored value being compared as-is.  Hence a stored `streetbis` of `none`
matches an empty or absent remote second street line, but a stored empty
string matches nothing the normalization can produce. -/
theorem match_remote_side_normalization (rc : Str → Nat) (rs : Str → Nat → Nat)
    (a : AddressRec) (d : AddressData) (gc gs : Option Nat)
    (hgeo : resolve_geo rc rs d = .ok (gc, gs)) :
    match_with_magento_data rc rs a d = .ok true ↔
      (a.name = some (joinName d.firstname d.lastname) ∧
       a.street = normStr (get_street_parts d.street).1 ∧
       a.streetbis = normOpt (get_street_parts d.street).2 ∧
       a.zip = normStr d.postcode ∧
       a.city = normStr d.city ∧
       a.country = gc ∧
       a.subdivision = gs) :=
  match_ok_true_iff rc rs a d gc gs hgeo

theorem match_remote_side_normalization_witness :
    match_with_magento_data (fun _ => 0) (fun _ _ => 0)
      ⟨1, 1, some ['J'], some ['M'], none, none, none, none, none⟩
      ⟨['J'], [], ['M', '\n'], [], [], some [], none, none⟩ = .ok true ↔
      ((some ['J'] : Option Str) = some (joinName ['J'] []) ∧
       (some ['M'] : Option Str) = normStr (get_street_parts ['M', '\n']).1 ∧
       (none : Option Str) = normOpt (get_street_parts ['M', '\n']).2 ∧
       (none : Option Str) = normStr [] ∧
       (none : Option Str) = normStr [] ∧
       (none : Option Nat) = none ∧
       (none : Option Nat) = none) :=
  match_remote_side_normalization (fun _ => 0) (fun _ _ => 0)
    ⟨1, 1, some ['J'], some ['M'], none, none, none, none, none⟩
    ⟨['J'], [], ['M', '\n'], [], [], some [], none, none⟩ none none rfl

/-- **C9 counterexample.** When the `country_id` key is absent from the
payload, matching (once the name check passes) and creation both raise
`KeyError` instead of treating country and subdivision as none. -/
theorem absent_country_key_fails_cx :
    match_with_magento_data (fun _ => 0) (fun _ _ => 0)
      ⟨1, 1, some ['J'], none, none, none, none, none, none⟩
      ⟨['J'], [], [], [], [], none, none, none⟩ = .error .keyError ∧
    create_for_party_using_magento_data (fun _ => 0) (fun _ _ => 0) 1
      ⟨['J'], [], [], [], [], none, none, none⟩ ⟨[], [], [], [], 0, 0, 0⟩
      = .error .keyError := by
  exact ⟨rfl, rfl⟩

/-- **C9 (amended).** When the payload carries `country_id` as the empty
string, both country and subdivision are treated as none on the remote
side — `region` is never read, so it may be absent — so a match requires
the stored country and subdivision to be none, and a created address
stores none for both.  (When the `country_id` key is missing entirely,
matching and creation instead raise `KeyError`.) -/
theorem empty_country_treated_as_none (rc : Str → Nat) (rs : Str → Nat → Nat)
    (a : AddressRec) (d : AddressData) (pid : Nat) (db : DB)
    (hc : d.country_id = some []) :
    resolve_geo rc rs d = .ok (none, none) ∧
    (match_with_magento_data rc rs a d = .ok true →
      a.country = none ∧ a.subdivision = none) ∧
    (∃ na db', create_for_party_using_magento_data rc rs pid d db = .ok (na, db') ∧
      na.country = none ∧ na.subdivision = none) := by
  have hgeo : resolve_geo rc rs d = .ok (none, none) := by
    simp [resolve_geo, hc, List.isEmpty]
  refine ⟨hgeo, ?_, ?_⟩
  · intro h
    rcases (match_ok_true_iff rc rs a d none none hgeo).1 h with ⟨-, -, -, -, -, h6, h7⟩
    exact ⟨h6, h7⟩
  · simp only [create_for_party_using_magento_data]
    rw [hgeo]
    exact ⟨_, _, rfl, rfl, rfl⟩

theorem empty_country_treated_as_none_witness :
    resolve_geo (fun _ => 0) (fun _ _ => 0) ⟨['J'], [], ['M'], [], [], some [], none, none⟩
      = .ok (none, none) ∧
    (match_with_magento_data (fun _ => 0) (fun _ _ => 0)
        ⟨1, 1, some ['J'], some ['M'], none, none, none, none, none⟩
        ⟨['J'], [], ['M'], [], [], some [], none, none⟩ = .ok true →
      (none : Option Nat) = none ∧ (none : Option Nat) = none) ∧
    (∃ na db', create_for_party_using_magento_data (fun _ => 0) (fun _ _ => 0) 2
        ⟨['J'], [], ['M'], [], [], some [], none, none⟩ ⟨[], [], [], [], 0, 0, 0⟩
        = .ok (na, db') ∧
      na.country = none ∧ na.subdivision = none) :=
  empty_country_treated_as_none (fun _ => 0) (fun _ _ => 0)
    ⟨1, 1, some ['J'], some ['M'], none, none, none, none, none⟩
    ⟨['J'], [], ['M'], [], [], some [], none, none⟩ 2 ⟨[], [], [], [], 0, 0, 0⟩ rfl

theorem phone_contacts_one {contacts : List CM} {pid : Nat} {d : AddressData} {t : Str}
    (ht : d.telephone = some t) (hne : t ≠ []) (hnc : has_phone_contact contacts pid t = false) :
    phone_contacts contacts pid d = [⟨pid, CMType.phone, t⟩] := by
  cases t with
  | nil => exact absurd rfl hne
  | cons c cs => simp [phone_contacts, ht, hnc, List.isEmpty]

theorem phone_contacts_nil {contacts : List CM} {pid : Nat} {d : AddressData}
    (h : d.telephone = none ∨ d.telephone = some [] ∨
      ∃ t, d.telephone = some t ∧ has_phone_contact contacts pid t = true) :
    phone_contacts contacts pid d = [] := by
  rcases h with h | h | ⟨t, ht, htrue⟩
  · simp [phone_contacts, h]
  · simp [phone_contacts, h, List.isEmpty]
  · simp [phone_contacts, ht, htrue]

theorem find_first_match_spec (rc : Str → Nat) (rs : Str → Nat → Nat)
    (d : AddressData) (gc gs : Option Nat)
    (hgeo : resolve_geo rc rs d = .ok (gc, gs)) (addrs : List AddressRec) :
    (∃ pre a suf, addrs = pre ++ a :: suf ∧
      match_with_magento_data rc rs a d = .ok true ∧
      (∀ b ∈ pre, match_with_magento_data rc rs b d = .ok false) ∧
      find_first_match rc rs d addrs = .ok (some a)) ∨
    ((∀ a ∈ addrs, match_with_magento_data rc rs a d = .ok false) ∧
      find_first_match rc rs d addrs = .ok none) := by
  induction addrs with
  | nil =>
    right
    exact ⟨by simp, rfl⟩
  | cons a rest ih =>
    rcases match_total rc rs a d gc gs hgeo with ⟨b, hb⟩
    cases b with
    | true =>
      left
      exact ⟨[], a, rest, rfl, hb, by simp, by simp [find_first_match, hb]⟩
    | false =>
      rcases ih with ⟨pre, a', suf, heq, h1, h2, h3⟩ | ⟨h1, h2⟩
      · left
        refine ⟨a :: pre, a', suf, by rw [heq, List.cons_append], h1, ?_,
          by simp [find_first_match, hb, h3]⟩
        intro x hx
        rcases List.mem_cons.1 hx with h | h
        · subst h
          exact hb
        · exact h2 x h
      · right
        refine ⟨?_, by simp [find_first_match, hb, h2]⟩
        intro x hx
        rcases List.mem_cons.1 hx with h | h
        · subst h
          exact hb
        · exact h1 x h

/-- **C6.** `find_or_create_for_party_using_magento_data` returns the
first address of the party (in stored order) that matches, leaving the
store untouched; if none matches it creates exactly one new address —
fields from the split street, raw postcode/city and the resolved
country/subdivision — and exactly one phone contact iff the payload
carries a non-empty telephone and the party has no phone/mobile contact
with that exact value. -/
theorem find_or_create_for_party_spec (rc : Str → Nat) (rs : Str → Nat → Nat)
    (pid : Nat) (d : AddressData) (db : DB) (gc gs : Option Nat)
    (hgeo : resolve_geo rc rs d = .ok (gc, gs)) :
    (∃ pre a suf, party_addresses db pid = pre ++ a :: suf ∧
      match_with_magento_data rc rs a d = .ok true ∧
      (∀ b ∈ pre, match_with_magento_data rc rs b d = .ok false) ∧
      find_or_create_for_party_using_magento_data rc rs pid d db = .ok (a, db)) ∨
    ((∀ a ∈ party_addresses db pid, match_with_magento_data rc rs a d = .ok false) ∧
      ∃ na db',
        find_or_create_for_party_using_magento_data rc rs pid d db = .ok (na, db') ∧
        na.party = pid ∧
        na.name = some (joinName d.firstname d.lastname) ∧
        na.street = some (get_street_parts d.street).1 ∧
        na.streetbis = (get_street_parts d.street).2 ∧
        na.zip = some d.postcode ∧
        na.city = some d.city ∧
        na.country = record_id_or_none gc ∧
        na.subdivision = record_id_or_none gs ∧
        db'.addresses = db.addresses ++ [na] ∧
        db'.parties = db.parties ∧
        db'.mwparties = db.mwparties ∧
        (∀ t, d.telephone = some t → t ≠ [] → has_phone_contact db.contacts pid t = false →
          db'.contacts = db.contacts ++ [⟨pid, CMType.phone, t⟩]) ∧
        ((d.telephone = none ∨ d.telephone = some [] ∨
            ∃ t, d.telephone = some t ∧ has_phone_contact db.contacts pid t = true) →
          db'.contacts = db.contacts)) := by
  rcases find_first_match_spec rc rs d gc gs hgeo (party_addresses db pid) with
    ⟨pre, a, suf, heq, h1, h2, h3⟩ | ⟨h1, h2⟩
  · left
    exact ⟨pre, a, suf, heq, h1, h2,
      by simp [find_or_create_for_party_using_magento_data, h3]⟩
  · right
    refine ⟨h1, ?_⟩
    simp only [find_or_create_for_party_using_magento_data]
    rw [h2]
    simp only [create_for_party_using_magento_data]
    rw [hgeo]
    refine ⟨_, _, rfl, rfl, rfl, rfl, rfl, rfl, rfl, rfl, rfl, rfl, rfl, rfl, ?_, ?_⟩
    · intro t ht hne hnc
      simp [phone_contacts_one ht hne hnc]
    · intro h
      simp [phone_contacts_nil h]

theorem find_or_create_for_party_spec_witness :
    (∃ pre a suf,
      party_addresses ⟨[], [], [], [], 0, 0, 0⟩ 1 = pre ++ a :: suf ∧
      match_with_magento_data (fun _ => 0) (fun _ _ => 0) a
        ⟨['J'], [], ['M'], [], [], some [], none, some ['5']⟩ = .ok true ∧
      (∀ b ∈ pre, match_with_magento_data (fun _ => 0) (fun _ _ => 0) b
        ⟨['J'], [], ['M'], [], [], some [], none, some ['5']⟩ = .ok false) ∧
      find_or_create_for_party_using_magento_data (fun _ => 0) (fun _ _ => 0) 1
        ⟨['J'], [], ['M'], [], [], some [], none, some ['5']⟩ ⟨[], [], [], [], 0, 0, 0⟩
        = .ok (a, ⟨[], [], [], [], 0, 0, 0⟩)) ∨
    ((∀ a ∈ party_addresses ⟨[], [], [], [], 0, 0, 0⟩ 1,
      match_with_magento_data (fun _ => 0) (fun _ _ => 0) a
        ⟨['J'], [], ['M'], [], [], some [], none, some ['5']⟩ = .ok false) ∧
      ∃ na db',
        find_or_create_for_party_using_magento_data (fun _ => 0) (fun _ _ => 0) 1
          ⟨['J'], [], ['M'], [], [], some [], none, some ['5']⟩ ⟨[], [], [], [], 0, 0, 0⟩
          = .ok (na, db') ∧
        na.party = 1 ∧
        na.name = some (joinName ['J'] []) ∧
        na.street = some (get_street_parts ['M']).1 ∧
        na.streetbis = (get_street_parts ['M']).2 ∧
        na.zip = some [] ∧
        na.city = some [] ∧
        na.country = record_id_or_none none ∧
        na.subdivision = record_id_or_none none ∧
        db'.addresses = [] ++ [na] ∧
        db'.parties = [] ∧
        db'.mwparties = [] ∧
        (∀ t, (some ['5'] : Option Str) = some t → t ≠ [] →
          has_phone_contact [] 1 t = false →
          db'.contacts = [] ++ [⟨1, CMType.phone, t⟩]) ∧
        (((some ['5'] : Option Str) = none ∨ (some ['5'] : Option Str) = some [] ∨
            ∃ t, (some ['5'] : Option Str) = some t ∧ has_phone_contact [] 1 t = true) →
          db'.contacts = [])) :=
  find_or_create_for_party_spec (fun _ => 0) (fun _ _ => 0) 1
    ⟨['J'], [], ['M'], [], [], some [], none, some ['5']⟩ ⟨[], [], [], [], 0, 0, 0⟩
    none none rfl

end Magento
